import Mathlib

/-!
Verification of the RatioFlip AI sources: the generation client
(`services/geminiService.ts`) and the application state machine around it
(`types.ts` / App component).  The TypeScript is shallowly embedded: the
remote endpoint and the settled outcome of asynchronous calls are passed in
as explicit parameters, JS `undefined` becomes `Option`, and thrown JS
errors become `Except` values carrying the error object.
-/

/-- A JavaScript error value as seen by a catch block.  `message` is `none`
when the property is absent; note that in JS the empty string is falsy, so
`e.message || fallback` substitutes the fallback for both `none` and
`some ""`. -/
structure JsError where
  message : Option String
deriving DecidableEq

/-- JS truthiness of an optional string (`process.env.API_KEY`):
`undefined` and `""` are falsy. -/
def truthyStr : Option String → Bool
  | none => false
  | some s => s ≠ ""

/-- The `inlineData` object of a response part.  The client reads only its
`data` field (the base64 payload). -/
structure InlineData where
  data : String
deriving DecidableEq

/-- One content part of a response candidate. -/
structure RespPart where
  inlineData : Option InlineData
  text : Option String
deriving DecidableEq

/-- The `content` object of a candidate. -/
structure Content where
  parts : List RespPart
deriving DecidableEq

/-- One response candidate. -/
structure Candidate where
  content : Content
deriving DecidableEq

/-- A remote response: `candidates` is `none` when the field is absent. -/
structure GenResponse where
  candidates : Option (List Candidate)
deriving DecidableEq

/-- One part of the outgoing request: either the inline-data object
(base64 payload and MIME type) or the text object. -/
inductive ReqPart where
  | inlineData (data : String) (mimeType : String)
  | text (s : String)
deriving DecidableEq

/-- The request `generateVerticalImage` submits: the model name, the content
parts, and the ratio value from `config.imageConfig` (written "9:16"). -/
structure GenRequest where
  model : String
  parts : List ReqPart
  arConfig : String
deriving DecidableEq

/-- JS `prompt || "Transform this image..."`: the default instruction
substitutes for an empty prompt string. -/
def promptOrDefault (prompt : String) : String :=
  if prompt = "" then
    "Transform this image to 9:16 portrait aspect ratio, maintaining the subject and style."
  else prompt

/-- The request object built inside `generateVerticalImage`: exactly two
parts, the inline image data followed by the text instruction. -/
def buildRequest (imageBase64 mimeType prompt : String) : GenRequest :=
  { model := "gemini-2.5-flash-image"
    parts := [ReqPart.inlineData imageBase64 mimeType,
              ReqPart.text (promptOrDefault prompt)]
    arConfig := "9:16" }

/-- The `for (const part of parts)` loop: the first part with a truthy
`inlineData` yields its payload, and the loop breaks there (later
inline-image parts are ignored). -/
def firstInlineData : List RespPart → Option String
  | [] => none
  | p :: rest =>
    match p.inlineData with
    | some d => some d.data
    | none => firstInlineData rest

/-- The body of the `try` block once the remote call has settled:
response-shape validation and payload extraction, raising JS errors. -/
def extractImageUri (remoteResult : Except JsError GenResponse) :
    Except JsError String :=
  match remoteResult with
  | .error e => .error e
  | .ok resp =>
    match resp.candidates with
    | none => .error ⟨some "No candidates returned from Gemini."⟩
    | some [] => .error ⟨some "No candidates returned from Gemini."⟩
    | some (c :: _) =>
      match firstInlineData c.content.parts with
      | some base64Data => .ok ("data:image/png;base64," ++ base64Data)
      | none => .error ⟨some "No image generated in the response."⟩

/-- The catch block: `throw new Error(error.message || "Failed to generate image.")`. -/
def catchMessage (e : JsError) : String :=
  match e.message with
  | some m => if m = "" then "Failed to generate image." else m
  | none => "Failed to generate image."

/-- The observable outcome of one `generateVerticalImage` call: the settled
result, how many `GoogleGenAI` clients were constructed, how many network
requests went out, and the request that was sent (if any). -/
structure CallResult where
  result : Except String String
  clientsConstructed : Nat
  networkCalls : Nat
  sentRequest : Option GenRequest

/-- Shallow embedding of `generateVerticalImage`.  `apiKey` is
`process.env.API_KEY`; `remote` is the remote endpoint
(`ai.models.generateContent`), which settles with a response or a thrown
JS error. -/
def generateVerticalImage (apiKey : Option String)
    (remote : GenRequest → Except JsError GenResponse)
    (imageBase64 mimeType prompt : String) : CallResult :=
  if truthyStr apiKey = false then
    { result := .error "API Key is missing. Please check your environment configuration."
      clientsConstructed := 0
      networkCalls := 0
      sentRequest := none }
  else
    let req := buildRequest imageBase64 mimeType prompt
    { result :=
        match extractImageUri (remote req) with
        | .ok uri => .ok uri
        | .error e => .error (catchMessage e)
      clientsConstructed := 1
      networkCalls := 1
      sentRequest := some req }

/-- The `File` object as the app reads it: only its `type` (MIME) field is
consumed. -/
structure JsFile where
  type : String
deriving DecidableEq

/-- The `ImageUpload` record of `types.ts`.  `base64` is `none` when the JS
value would be `undefined` (a preview string with no comma). -/
structure ImageUpload where
  file : JsFile
  previewUrl : String
  base64 : Option String
  mimeType : String
deriving DecidableEq

/-- The `ProcessingState` record of `types.ts`. -/
structure ProcessingState where
  isLoading : Bool
  error : Option String
  progress : String
deriving DecidableEq

/-- The App component's state: the four `useState` hooks. -/
structure AppState where
  sourceImage : Option ImageUpload
  generatedImage : Option String
  prompt : String
  processing : ProcessingState
deriving DecidableEq

/-- The App component's initial state. -/
def initialState : AppState :=
  { sourceImage := none
    generatedImage := none
    prompt := "Convert this landscape image to a 9:16 portrait composition, expanding the background naturally."
    processing := { isLoading := false, error := none, progress := "" } }

/-- JS `String.prototype.split` with a one-character separator, on the
character list of the string. -/
def jsSplit (sep : Char) : List Char → List (List Char)
  | [] => [[]]
  | c :: rest =>
    if c = sep then [] :: jsSplit sep rest
    else
      match jsSplit sep rest with
      | [] => [[c]]
      | h :: t => (c :: h) :: t

/-- JS regex `.` without the /s flag: any character except a line
terminator. -/
def regexDot (c : Char) : Bool :=
  !(c = '\n' || c = '\r' || c = '\u2028' || c = '\u2029')

/-- Greedy match of `(.*);base64,` against `l`: the longest
line-terminator-free prefix of `l` followed immediately by `";base64,"`. -/
def greedyCapture : List Char → Option (List Char)
  | [] => none
  | c :: rest =>
    match (if regexDot c then greedyCapture rest else none) with
    | some m => some (c :: m)
    | none =>
      if (";base64,".toList).isPrefixOf (c :: rest) then some [] else none

/-- JS `s.match(/^data:(.*);base64,/)`, reduced to its captured group:
`some mt` when the pattern matches with capture `mt`, else `none`. -/
def matchDataUrl (s : String) : Option String :=
  if ("data:".toList).isPrefixOf s.toList then
    (greedyCapture (s.toList.drop 5)).map fun m => String.mk m
  else none

/-- `handleImageSelected` (App): store the new upload and reset the result
and processing state.  The MIME type is the regex capture when the preview
matches the data-URL pattern, else `file.type`; `base64` is
`base64.split(",")[1]`. -/
def handleImageSelected (s : AppState) (file : JsFile) (base64 : String) :
    AppState :=
  { s with
    sourceImage := some
      { file := file
        previewUrl := base64
        base64 := ((jsSplit ',' base64.toList)[1]?).map fun l => String.mk l
        mimeType := (matchDataUrl base64).getD file.type }
    generatedImage := none
    processing := { isLoading := false, error := none, progress := "" } }

/-- `handleClear` (App). -/
def handleClear (s : AppState) : AppState :=
  { s with
    sourceImage := none
    generatedImage := none
    processing := { isLoading := false, error := none, progress := "" } }

/-- The catch block of `handleGenerate`:
`err.message || "Something went wrong"`. -/
def catchMessageApp (e : JsError) : String :=
  match e.message with
  | some m => if m = "" then "Something went wrong" else m
  | none => "Something went wrong"

/-- `handleGenerate` (App).  The settled outcome of the
`generateVerticalImage` call is passed in as `outcome`; the second
component counts how many client calls were issued by this run. -/
def handleGenerate (s : AppState) (outcome : Except JsError String) :
    AppState × Nat :=
  match s.sourceImage with
  | none => (s, 0)
  | some _ =>
    let s1 := { s with processing :=
      { isLoading := true, error := none, progress := "Analyzing image..." } }
    let s2 := { s1 with processing :=
      { s1.processing with progress := "Generating new aspect ratio..." } }
    match outcome with
    | .ok url =>
      let s3 := { s2 with generatedImage := some url }
      ({ s3 with processing :=
          { s3.processing with isLoading := false, progress := "" } }, 1)
    | .error e =>
      let s3 := { s2 with processing :=
        { s2.processing with error := some (catchMessageApp e) } }
      ({ s3 with processing :=
          { s3.processing with isLoading := false, progress := "" } }, 1)

/-- The generate button's disabled condition:
`!sourceImage || processing.isLoading`. -/
def generateDisabled (s : AppState) : Bool :=
  s.sourceImage.isNone || s.processing.isLoading

/-- One user activation of the generate trigger: a disabled button
dispatches nothing; otherwise `handleGenerate` runs. -/
def clickGenerate (s : AppState) (outcome : Except JsError String) :
    AppState × Nat :=
  if generateDisabled s then (s, 0) else handleGenerate s outcome

/-- A candidate carrying a text part, then the image payload "QUJD", then a
second (ignored) image payload. -/
def candGood : Candidate :=
  { content := { parts :=
      [ { inlineData := none, text := some "a caption" }
      , { inlineData := some { data := "QUJD" }, text := none }
      , { inlineData := some { data := "SUdOT1JFRA" }, text := none } ] } }

/-- A candidate with no inline-image part at all. -/
def candNoImage : Candidate :=
  { content := { parts :=
      [ { inlineData := none, text := some "only text here" } ] } }

/-- A candidate whose single part is the image payload "QUJD". -/
def candWithImage : Candidate :=
  { content := { parts :=
      [ { inlineData := some { data := "QUJD" }, text := none } ] } }

/-- A response whose single candidate is `candGood`. -/
def respGood : GenResponse := { candidates := some [candGood] }

/-- A response with one candidate that has no inline-image part at all. -/
def respNoImage : GenResponse := { candidates := some [candNoImage] }

/-- A response whose FIRST candidate has no inline-image part while its
SECOND candidate does. -/
def respSecondCandidate : GenResponse :=
  { candidates := some [candNoImage, candWithImage] }

/-- A sample uploaded file handle. -/
def sampleFile : JsFile := { type := "image/jpeg" }

/-- A sample stored upload record. -/
def sampleUpload : ImageUpload :=
  { file := sampleFile
    previewUrl := "data:image/png;base64,QUJD"
    base64 := some "QUJD"
    mimeType := "image/png" }

/-- A sample app state in flight: upload present, generation loading. -/
def loadingState : AppState :=
  { sourceImage := some sampleUpload
    generatedImage := none
    prompt := "make it blue"
    processing := { isLoading := true, error := none, progress := "Analyzing image..." } }

/-- A sample app state holding an upload and a previously generated result. -/
def sampleLoadedState : AppState :=
  { sourceImage := some sampleUpload
    generatedImage := some "data:image/png;base64,T0xE"
    prompt := "make it blue"
    processing := { isLoading := false, error := none, progress := "" } }

/-! ### Helper lemmas -/

/-- A boolean `isPrefixOf` yields an explicit decomposition. -/
theorem isPrefixOf_exists_append {l1 l2 : List Char}
    (h : l1.isPrefixOf l2 = true) : ∃ t, l2 = l1 ++ t := by
  induction l1 generalizing l2 with
  | nil => exact ⟨l2, rfl⟩
  | cons a as ih =>
    cases l2 with
    | nil => simp [List.isPrefixOf] at h
    | cons b bs =>
      simp only [List.isPrefixOf, Bool.and_eq_true, beq_iff_eq] at h
      obtain ⟨rfl, h2⟩ := h
      obtain ⟨t, rfl⟩ := ih h2
      exact ⟨t, rfl⟩

/-- A successful greedy capture decomposes the scanned list as
capture ++ ";base64," ++ tail. -/
theorem greedyCapture_spec :
    ∀ l m, greedyCapture l = some m → ∃ t, l = m ++ (";base64,".toList ++ t) := by
  intro l
  induction l with
  | nil => intro m h; simp [greedyCapture] at h
  | cons c rest ih =>
    intro m h
    rw [greedyCapture] at h
    rcases hinner : (if regexDot c then greedyCapture rest else none) with _ | m1
    · rw [hinner] at h
      rcases hpre : ((";base64,".toList).isPrefixOf (c :: rest)) with _ | _
      · rw [hpre] at h; simp at h
      · rw [hpre] at h
        simp only [if_true, Option.some.injEq] at h
        subst h
        obtain ⟨t, ht⟩ := isPrefixOf_exists_append hpre
        exact ⟨t, by simpa using ht⟩
    · rw [hinner] at h
      simp only [Option.some.injEq] at h
      subst h
      rcases hdot : regexDot c with _ | _
      · rw [hdot] at hinner; simp at hinner
      · rw [hdot] at hinner
        simp only [if_true] at hinner
        obtain ⟨t, ht⟩ := ih m1 hinner
        exact ⟨t, by simp [ht]⟩

/-- `jsSplit` never returns the empty list of segments. -/
theorem jsSplit_ne_nil (sep : Char) : ∀ l, jsSplit sep l ≠ [] := by
  intro l
  cases l with
  | nil => simp [jsSplit]
  | cons c rest =>
    rw [jsSplit]
    split
    · simp
    · split <;> simp

/-- The separator occurs in no segment produced by `jsSplit`. -/
theorem jsSplit_no_sep (sep : Char) :
    ∀ l, ∀ seg ∈ jsSplit sep l, sep ∉ seg := by
  intro l
  induction l with
  | nil =>
    intro seg hseg
    simp only [jsSplit, List.mem_singleton] at hseg
    subst hseg; simp
  | cons c rest ih =>
    intro seg hseg
    rw [jsSplit] at hseg
    by_cases hc : c = sep
    · rw [if_pos hc] at hseg
      rcases List.mem_cons.mp hseg with h1 | h1
      · subst h1; simp
      · exact ih seg h1
    · rw [if_neg hc] at hseg
      rcases hr : jsSplit sep rest with _ | ⟨h0, t0⟩
      · exact absurd hr (jsSplit_ne_nil sep rest)
      · rw [hr] at hseg
        rcases List.mem_cons.mp hseg with h1 | h1
        · subst h1
          intro hmem
          rcases List.mem_cons.mp hmem with h2 | h2
          · exact hc h2.symm
          · exact ih h0 (by rw [hr]; exact List.mem_cons_self h0 t0) h2
        · exact ih seg (by rw [hr]; exact List.mem_cons_of_mem h0 h1)

/-- If the separator occurs, `jsSplit` produces at least two segments. -/
theorem jsSplit_mem_two (sep : Char) :
    ∀ l, sep ∈ l → ∃ a b t, jsSplit sep l = a :: b :: t := by
  intro l
  induction l with
  | nil => intro h; simp at h
  | cons c rest ih =>
    intro h
    by_cases hc : c = sep
    · rcases hr : jsSplit sep rest with _ | ⟨b, t⟩
      · exact absurd hr (jsSplit_ne_nil sep rest)
      · exact ⟨[], b, t, by rw [jsSplit, if_pos hc, hr]⟩
    · have hmem : sep ∈ rest := by
        rcases List.mem_cons.mp h with h1 | h1
        · exact absurd h1.symm hc
        · exact h1
      obtain ⟨a, b, t, hab⟩ := ih hmem
      exact ⟨c :: a, b, t, by rw [jsSplit, if_neg hc, hab]⟩

/-- When no part carries inline data, the extraction loop finds nothing. -/
theorem firstInlineData_eq_none {l : List RespPart}
    (h : ∀ p ∈ l, p.inlineData = none) : firstInlineData l = none := by
  induction l with
  | nil => rfl
  | cons p rest ih =>
    rw [firstInlineData, h p (List.mem_cons_self p rest)]
    exact ih fun q hq => h q (List.mem_cons_of_mem p hq)

/-- A list containing an element missing from another list is not an infix
of it. -/
theorem not_infix_of_missing {l p : List Char}
    (hp : ',' ∈ p) (hl : ',' ∉ l) : ¬ p <:+: l :=
  fun h => hl (h.subset hp)

/-! ### Claim theorems: the generation client -/

/-- C4: when no API credential is configured in the process environment
(absent or empty, hence falsy), `generateVerticalImage` throws the
configuration error before constructing a client or issuing any network
request: the network layer observes zero calls. -/
theorem generateVerticalImage_missing_key (apiKey : Option String)
    (remote : GenRequest → Except JsError GenResponse)
    (imageBase64 mimeType prompt : String)
    (hkey : truthyStr apiKey = false) :
    generateVerticalImage apiKey remote imageBase64 mimeType prompt =
      { result := Except.error "API Key is missing. Please check your environment configuration."
        clientsConstructed := 0
        networkCalls := 0
        sentRequest := none } := by
  rw [generateVerticalImage, if_pos hkey]

/-- C4, witness: a call with no credential at a concrete input. -/
theorem generateVerticalImage_missing_key_witness :
    generateVerticalImage none (fun _ => Except.ok respGood) "QQ" "image/png" "" =
      { result := Except.error "API Key is missing. Please check your environment configuration."
        clientsConstructed := 0
        networkCalls := 0
        sentRequest := none } :=
  generateVerticalImage_missing_key none (fun _ => Except.ok respGood) "QQ" "image/png" "" rfl

/-- C2: with a configured credential, the request sent to the remote API
has exactly two parts: the inline-data part holding the given payload and
MIME type, and a text part equal to the prompt when non-empty and to the
default instruction when empty. -/
theorem generateVerticalImage_request_parts (apiKey : Option String)
    (remote : GenRequest → Except JsError GenResponse)
    (imageBase64 mimeType prompt : String)
    (hkey : truthyStr apiKey = true) :
    (generateVerticalImage apiKey remote imageBase64 mimeType prompt).sentRequest =
      some { model := "gemini-2.5-flash-image"
             parts := [ReqPart.inlineData imageBase64 mimeType,
                       ReqPart.text (if prompt = "" then
                         "Transform this image to 9:16 portrait aspect ratio, maintaining the subject and style."
                         else prompt)]
             arConfig := "9:16" } := by
  rw [generateVerticalImage, if_neg (by simp [hkey])]
  rfl

/-- C2, witness: a concrete call with an empty prompt sends the default
instruction. -/
theorem generateVerticalImage_request_parts_witness :
    (generateVerticalImage (some "key") (fun _ => Except.ok respGood) "QQ" "image/png" "").sentRequest =
      some { model := "gemini-2.5-flash-image"
             parts := [ReqPart.inlineData "QQ" "image/png",
                       ReqPart.text "Transform this image to 9:16 portrait aspect ratio, maintaining the subject and style."]
             arConfig := "9:16" } := by
  have h := generateVerticalImage_request_parts (some "key") (fun _ => Except.ok respGood)
    "QQ" "image/png" "" rfl
  simpa using h

/-- C5: with a configured credential, any error raised during the request,
response validation, or payload extraction is re-raised as a single error
whose message is the underlying message when present and non-empty and
"Failed to generate image." otherwise; exactly one network call is made (no
retry) and the result is that single error (no partial result). -/
theorem generateVerticalImage_error_translation (apiKey : Option String)
    (remote : GenRequest → Except JsError GenResponse)
    (imageBase64 mimeType prompt : String) (e : JsError)
    (hkey : truthyStr apiKey = true)
    (herr : extractImageUri (remote (buildRequest imageBase64 mimeType prompt))
      = Except.error e) :
    (generateVerticalImage apiKey remote imageBase64 mimeType prompt).result =
      Except.error (match e.message with
        | some m => if m = "" then "Failed to generate image." else m
        | none => "Failed to generate image.") ∧
    (generateVerticalImage apiKey remote imageBase64 mimeType prompt).networkCalls = 1 := by
  have hkey2 : (truthyStr apiKey = false) = False := by simp [hkey]
  refine ⟨?_, by simp only [generateVerticalImage, hkey2, if_false]⟩
  simp only [generateVerticalImage, hkey2, if_false, herr]
  rfl

/-- C5, witness: a transport error carrying no message at a concrete input
is re-raised as the default failure message after one network call. -/
theorem generateVerticalImage_error_translation_witness :
    (generateVerticalImage (some "key") (fun _ => Except.error ⟨none⟩) "QQ" "image/png" "hi").result =
      Except.error "Failed to generate image." ∧
    (generateVerticalImage (some "key") (fun _ => Except.error ⟨none⟩) "QQ" "image/png" "hi").networkCalls = 1 := by
  have h := generateVerticalImage_error_translation (some "key") (fun _ => Except.error ⟨none⟩)
    "QQ" "image/png" "hi" ⟨none⟩ rfl rfl
  simpa using h

/-- C1, counterexample: a response whose FIRST candidate has no inline-image
part while its SECOND candidate carries the payload "QUJD" contains a
candidate with an inline-image part, yet the call fails instead of
returning "data:image/png;base64,QUJD": the code inspects only the first
candidate. -/
theorem generateVerticalImage_c1_counterexample :
    respSecondCandidate.candidates = some [candNoImage, candWithImage] ∧
    firstInlineData candWithImage.content.parts = some "QUJD" ∧
    (generateVerticalImage (some "key") (fun _ => Except.ok respSecondCandidate)
        "QQ" "image/png" "").result
      = Except.error "No image generated in the response." :=
  ⟨rfl, rfl, rfl⟩

/-- C1, amended: with a configured credential, when the remote response's
FIRST candidate has at least one inline-image part, the call returns
"data:image/png;base64," concatenated with the payload of the first
inline-image part in part order (later ones are ignored). -/
theorem generateVerticalImage_first_candidate_success (apiKey : Option String)
    (remote : GenRequest → Except JsError GenResponse)
    (imageBase64 mimeType prompt : String) (resp : GenResponse)
    (c : Candidate) (cs : List Candidate) (d : String)
    (hkey : truthyStr apiKey = true)
    (hremote : remote (buildRequest imageBase64 mimeType prompt) = Except.ok resp)
    (hcand : resp.candidates = some (c :: cs))
    (hfirst : firstInlineData c.content.parts = some d) :
    (generateVerticalImage apiKey remote imageBase64 mimeType prompt).result
      = Except.ok ("data:image/png;base64," ++ d) := by
  have hkey2 : (truthyStr apiKey = false) = False := by simp [hkey]
  simp only [generateVerticalImage, hkey2, if_false, extractImageUri, hremote, hcand, hfirst]

/-- C1, witness: a concrete response whose first candidate holds a text
part, the payload "QUJD", and a later (ignored) image part yields exactly
the data URI of "QUJD". -/
theorem generateVerticalImage_first_candidate_success_witness :
    (generateVerticalImage (some "key") (fun _ => Except.ok respGood)
        "QQ" "image/png" "").result
      = Except.ok ("data:image/png;base64," ++ "QUJD") :=
  generateVerticalImage_first_candidate_success (some "key")
    (fun _ => Except.ok respGood) "QQ" "image/png" "" respGood candGood [] "QUJD"
    rfl rfl rfl rfl

/-- C3: with a configured credential, an absent or empty candidate list
fails with a message containing "No candidates", and a present first
candidate none of whose content parts carries inline image data fails with
exactly "No image generated in the response.". -/
theorem generateVerticalImage_validation_errors (apiKey : Option String)
    (remote : GenRequest → Except JsError GenResponse)
    (imageBase64 mimeType prompt : String) (resp : GenResponse)
    (hkey : truthyStr apiKey = true)
    (hremote : remote (buildRequest imageBase64 mimeType prompt) = Except.ok resp) :
    ((resp.candidates = none ∨ resp.candidates = some []) →
      (generateVerticalImage apiKey remote imageBase64 mimeType prompt).result
        = Except.error "No candidates returned from Gemini." ∧
      "No candidates".toList <:+: "No candidates returned from Gemini.".toList) ∧
    (∀ c cs, resp.candidates = some (c :: cs) →
      (∀ p ∈ c.content.parts, p.inlineData = none) →
      (generateVerticalImage apiKey remote imageBase64 mimeType prompt).result
        = Except.error "No image generated in the response.") := by
  have hkey2 : (truthyStr apiKey = false) = False := by simp [hkey]
  constructor
  · rintro (hc | hc) <;>
      · refine ⟨?_, by decide⟩
        simp only [generateVerticalImage, hkey2, if_false, extractImageUri, hremote, hc]
        rfl
  · intro c cs hc hno
    simp only [generateVerticalImage, hkey2, if_false, extractImageUri, hremote, hc,
      firstInlineData_eq_none hno]
    rfl

/-- C3, witness: concrete calls hitting the empty-candidate-list error and
the no-image-part error. -/
theorem generateVerticalImage_validation_errors_witness :
    (generateVerticalImage (some "key") (fun _ => Except.ok ⟨some []⟩)
        "QQ" "image/png" "hi").result
      = Except.error "No candidates returned from Gemini." ∧
    (generateVerticalImage (some "key") (fun _ => Except.ok respNoImage)
        "QQ" "image/png" "hi").result
      = Except.error "No image generated in the response." := by
  constructor
  · exact ((generateVerticalImage_validation_errors (some "key")
      (fun _ => Except.ok ⟨some []⟩) "QQ" "image/png" "hi" ⟨some []⟩ rfl rfl).1
      (Or.inr rfl)).1
  · exact (generateVerticalImage_validation_errors (some "key")
      (fun _ => Except.ok respNoImage) "QQ" "image/png" "hi" respNoImage rfl rfl).2
      candNoImage [] rfl (by decide)

/-! ### Claim theorems: the app state machine -/

/-- C6: when the Generation Client rejects, `handleGenerate` stores the
error message (the client's message when present and non-empty, else the
fallback "Something went wrong") in `processing.error`, ends with
`processing.isLoading` false, and leaves the previously stored generated
result unchanged. -/
theorem handleGenerate_failure (s : AppState) (u : ImageUpload) (e : JsError)
    (hsrc : s.sourceImage = some u) :
    ((handleGenerate s (Except.error e)).1.processing.error =
      some (match e.message with
        | some m => if m = "" then "Something went wrong" else m
        | none => "Something went wrong")) ∧
    (handleGenerate s (Except.error e)).1.processing.isLoading = false ∧
    (handleGenerate s (Except.error e)).1.generatedImage = s.generatedImage := by
  simp [handleGenerate, hsrc]
  rfl

/-- C6, witness: a state holding an earlier result, a rejection carrying an
empty (falsy) message: the fallback is stored and the old result kept. -/
theorem handleGenerate_failure_witness :
    ((handleGenerate sampleLoadedState (Except.error ⟨some ""⟩)).1.processing.error =
      some "Something went wrong") ∧
    (handleGenerate sampleLoadedState (Except.error ⟨some ""⟩)).1.processing.isLoading = false ∧
    (handleGenerate sampleLoadedState (Except.error ⟨some ""⟩)).1.generatedImage =
      some "data:image/png;base64,T0xE" := by
  have h := handleGenerate_failure sampleLoadedState sampleUpload ⟨some ""⟩ rfl
  simpa [sampleLoadedState] using h

/-- C7: clearing the source image from any state resets the session to the
initial empty state: no source image, no generated result, and processing
equal to the no-loading, no-error, empty-progress record. -/
theorem handleClear_resets (s : AppState) :
    (handleClear s).sourceImage = none ∧
    (handleClear s).generatedImage = none ∧
    (handleClear s).processing =
      { isLoading := false, error := none, progress := "" } :=
  ⟨rfl, rfl, rfl⟩

/-- C8: whenever no source image is present or a generation is in flight,
the generate trigger is disabled and an activation issues zero client
calls, so a second activation while loading never issues a second request. -/
theorem clickGenerate_guard (s : AppState) (outcome : Except JsError String)
    (h : s.sourceImage = none ∨ s.processing.isLoading = true) :
    generateDisabled s = true ∧ clickGenerate s outcome = (s, 0) := by
  have hd : generateDisabled s = true := by
    rcases h with h | h
    · simp [generateDisabled, h]
    · simp [generateDisabled, h]
  exact ⟨hd, by rw [clickGenerate, if_pos hd]⟩

/-- C8, witness: a loading state with an upload present; the trigger is
disabled and a second activation dispatches nothing. -/
theorem clickGenerate_guard_witness :
    generateDisabled loadingState = true ∧
    clickGenerate loadingState (Except.ok "data:image/png;base64,QUJD") =
      (loadingState, 0) :=
  clickGenerate_guard loadingState (Except.ok "data:image/png;base64,QUJD")
    (Or.inr rfl)

/-- C10: every accepted upload clears the previously generated result and
resets the processing state, and when the preview string does not match the
data-URL pattern the stored MIME type falls back to the file's own type. -/
theorem handleImageSelected_resets (s : AppState) (file : JsFile) (b64 : String) :
    (handleImageSelected s file b64).generatedImage = none ∧
    (handleImageSelected s file b64).processing =
      { isLoading := false, error := none, progress := "" } ∧
    (matchDataUrl b64 = none →
      ∃ u, (handleImageSelected s file b64).sourceImage = some u ∧
        u.mimeType = file.type) := by
  refine ⟨rfl, rfl, fun h => ⟨_, rfl, ?_⟩⟩
  show (matchDataUrl b64).getD file.type = file.type
  rw [h]
  rfl

/-- C10, witness: a preview string that is not a data URL; the stored MIME
type is the file's own type and result and processing are reset. -/
theorem handleImageSelected_resets_witness :
    (handleImageSelected initialState sampleFile "plainstring").generatedImage = none ∧
    (handleImageSelected initialState sampleFile "plainstring").processing =
      { isLoading := false, error := none, progress := "" } ∧
    ∃ u, (handleImageSelected initialState sampleFile "plainstring").sourceImage = some u ∧
      u.mimeType = sampleFile.type := by
  have h := handleImageSelected_resets initialState sampleFile "plainstring"
  exact ⟨h.1, h.2.1, h.2.2 (by decide)⟩

/-- C9: for every accepted upload whose preview string matches the data-URL
pattern, the stored record keeps the full preview (which still matches the
pattern, so it carries the prefix) while its raw `base64` field can never
contain a `data:...;base64,` prefix; the stored record is built wholesale
from the inputs alone, independent of the previous state. -/
theorem handleImageSelected_upload_invariant (s : AppState) (file : JsFile)
    (b64 mt : String) (hmatch : matchDataUrl b64 = some mt) :
    ∃ u raw,
      (handleImageSelected s file b64).sourceImage = some u ∧
      u.previewUrl = b64 ∧
      matchDataUrl u.previewUrl = some mt ∧
      u.base64 = some raw ∧
      (∀ m2 : List Char,
        ¬ ("data:".toList ++ (m2 ++ ";base64,".toList)) <:+: raw.toList) ∧
      (∀ t : AppState, (handleImageSelected t file b64).sourceImage =
        (handleImageSelected s file b64).sourceImage) := by
  have hmatch0 := hmatch
  rw [matchDataUrl] at hmatch0
  by_cases hpre : ("data:".toList).isPrefixOf b64.toList
  case neg =>
    rw [if_neg hpre] at hmatch0
    exact absurd hmatch0 (by simp)
  case pos =>
  rw [if_pos hpre] at hmatch0
  obtain ⟨mc, hg, hmk⟩ := Option.map_eq_some'.mp hmatch0
  obtain ⟨t0, ht0⟩ := greedyCapture_spec _ mc hg
  obtain ⟨td, htd⟩ := isPrefixOf_exists_append hpre
  have hlen : ("data:".toList).length = 5 := rfl
  have hdrop : b64.toList.drop 5 = td := by
    rw [htd, ← hlen, List.drop_left]
  rw [hdrop] at ht0
  rw [ht0] at htd
  have hcomma : ',' ∈ b64.toList := by
    rw [htd]
    refine List.mem_append.mpr (Or.inr ?_)
    refine List.mem_append.mpr (Or.inr ?_)
    refine List.mem_append.mpr (Or.inl ?_)
    decide
  obtain ⟨a, b, tl, hab⟩ := jsSplit_mem_two ',' b64.toList hcomma
  have hb : (jsSplit ',' b64.toList)[1]? = some b := by rw [hab]; simp
  have hbmem : b ∈ jsSplit ',' b64.toList := by
    rw [hab]
    exact List.mem_cons_of_mem a (List.mem_cons_self b tl)
  have hnosep : ',' ∉ b := jsSplit_no_sep ',' b64.toList b hbmem
  refine ⟨{ file := file, previewUrl := b64,
            base64 := some (String.mk b), mimeType := mt }, String.mk b,
          ?_, rfl, hmatch, rfl, ?_, fun t => rfl⟩
  · simp only [handleImageSelected, hb, Option.map_some', hmatch, Option.getD_some]
  · intro m2
    have htl : (String.mk b).toList = b := rfl
    rw [htl]
    refine not_infix_of_missing ?_ hnosep
    refine List.mem_append.mpr (Or.inr ?_)
    refine List.mem_append.mpr (Or.inr ?_)
    decide

/-- C9, witness: a concrete upload with preview
"data:image/png;base64,QUJD". -/
theorem handleImageSelected_upload_invariant_witness :
    ∃ u raw,
      (handleImageSelected initialState sampleFile
        "data:image/png;base64,QUJD").sourceImage = some u ∧
      u.previewUrl = "data:image/png;base64,QUJD" ∧
      matchDataUrl u.previewUrl = some "image/png" ∧
      u.base64 = some raw ∧
      (∀ m2 : List Char,
        ¬ ("data:".toList ++ (m2 ++ ";base64,".toList)) <:+: raw.toList) ∧
      (∀ t : AppState, (handleImageSelected t sampleFile
          "data:image/png;base64,QUJD").sourceImage =
        (handleImageSelected initialState sampleFile
          "data:image/png;base64,QUJD").sourceImage) :=
  handleImageSelected_upload_invariant initialState sampleFile
    "data:image/png;base64,QUJD" "image/png" (by decide)
